import Mathlib

/-!
Shallow embedding of the Weather-Data-Ingestion-Pipeline repository
(`src/components/data_ingestion.py`, `src/components/data_analysis.py`,
`src/components/data_modelling.py`).

Conventions of the embedding:
* Python `float` values are modelled as `ℚ`; every numeric value occurring
  in the pipeline (integers in tenths divided by `10.0`) is exactly
  representable, so the comparisons performed by the code agree with
  rationals.
* `float(s)` is modelled on optionally signed integer literals, the only
  numeric form of the `wx_data` input format (`YYYYMMDD\tMAXTEMP\tMINTEMP\tPRECIP`,
  integers in tenths); a string outside that form is a parse failure.
* `datetime.strptime(s, "%Y%m%d").date()` is modelled on 8-digit date
  strings, the date form of the input format, with Python's month/day
  range validation (including leap years).
* Database tables are modelled as lists of rows; the staging table is
  `Option (List …)` (`none` = table does not exist).
* Failures of external operations (table creation, merge, drop, the
  existing-records query, opening a file) are injected as boolean flags.
* The worker pool: every submitted file runs to completion (the
  `with ThreadPoolExecutor` block waits for all futures on exit), so files
  are modelled as processed independently; `exit(1)` raised in a worker
  (`SystemExit`) terminates that worker only, is re-raised by
  `future.result()` in the coordinator, is not caught by the
  `except Exception` handlers, and reaches the `finally` cleanup.
-/

/-- A calendar date, as produced by `datetime.strptime(s, "%Y%m%d").date()`. -/
structure Date where
  year : Nat
  month : Nat
  day : Nat
deriving DecidableEq, Repr

/-- One row of `weather_data` / `temp_weather_data`
(`data_modelling.py`, class `WeatherData`): nullable readings are `Option ℚ`. -/
structure Observation where
  station_id : String
  date : Date
  max_temp : Option ℚ
  min_temp : Option ℚ
  precipitation : Option ℚ
deriving DecidableEq, Repr

/-- The `(station_id, date)` key of the `unique_station_date` constraint. -/
def obsKey (o : Observation) : String × Date :=
  (o.station_id, o.date)

/-- Whitespace characters stripped by Python `str.strip()`. -/
def isPyWS (c : Char) : Bool :=
  c = ' ' || c = '\t' || c = '\n' || c = '\r' || c = '\x0b' || c = '\x0c'

/-- `line.strip()`: drop leading and trailing whitespace. -/
def stripChars (cs : List Char) : List Char :=
  ((cs.dropWhile isPyWS).reverse.dropWhile isPyWS).reverse

/-- `s.split(sep)` for a one-character separator: splitting the empty string
gives `[[]]`, matching Python `"".split(sep) == [""]`. -/
def splitOnChar (sep : Char) (cs : List Char) : List (List Char) :=
  cs.foldr
    (fun c acc =>
      match acc with
      | [] => [[c]]
      | cur :: rest => if c = sep then [] :: cur :: rest else (c :: cur) :: rest)
    [[]]

/-- Numeric value of a decimal digit character. -/
def digitVal (c : Char) : Nat :=
  c.toNat - 48

/-- All characters are decimal digits (and the list is nonempty). -/
def allDigits (cs : List Char) : Bool :=
  !cs.isEmpty && cs.all fun c => '0' ≤ c && c ≤ '9'

/-- Value of a nonempty string of decimal digits. -/
def natOfDigits (cs : List Char) : Nat :=
  cs.foldl (fun a c => 10 * a + digitVal c) 0

/-- Days in a month, with the Gregorian leap-year rule
(`datetime` validates day ranges). -/
def daysInMonth (y m : Nat) : Nat :=
  if m = 2 then
    if (y % 4 = 0 && y % 100 ≠ 0) || y % 400 = 0 then 29 else 28
  else if m = 4 || m = 6 || m = 9 || m = 11 then 30
  else 31

/-- `datetime.strptime(date_str, "%Y%m%d").date()` on the 8-digit dates of
the input format: 4-digit year, 2-digit month, 2-digit day, with range
validation; `none` models the `ValueError` raised on invalid input. -/
def parseDate (cs : List Char) : Option Date :=
  if cs.length = 8 ∧ allDigits cs then
    let y := natOfDigits (cs.take 4)
    let m := natOfDigits ((cs.drop 4).take 2)
    let d := natOfDigits (cs.drop 6)
    if 1 ≤ y ∧ 1 ≤ m ∧ m ≤ 12 ∧ 1 ≤ d ∧ d ≤ daysInMonth y m then
      some ⟨y, m, d⟩
    else none
  else none

/-- `float(s)` on an optionally signed integer literal (the numeric form of
the input fields); `none` models the `ValueError` on anything else. -/
def parseFloat (cs : List Char) : Option ℚ :=
  match cs with
  | '-' :: rest => if allDigits rest then some (-(natOfDigits rest : ℚ)) else none
  | '+' :: rest => if allDigits rest then some (natOfDigits rest : ℚ) else none
  | _ => if allDigits cs then some (natOfDigits cs : ℚ) else none

/-- The value bound to a reading variable in `process_file`:
`float(field_str) / 10.0`. -/
def parseField (cs : List Char) : Option ℚ :=
  (parseFloat cs).map (fun v => v / 10)

/-- The value actually inserted into staging for a reading `v` already
divided by 10: `v if v != -9999 else None` (`data_ingestion.py` lines
131–133 — the comparison happens AFTER the division by 10). -/
def sentinelFilter (v : ℚ) : Option ℚ :=
  if v = -9999 then none else some v

/-- `os.path.basename(file_path).split('.')[0]` (the file name argument is
already a base name in this model). -/
def stationIdOf (name : String) : String :=
  ⟨(splitOnChar '.' name.data).headD []⟩

/-- Outcome of the per-line logic of `process_file` on one raw line. -/
inductive LineClass where
  /-- `len(data) != 4`: the line is silently skipped. -/
  | malformed : LineClass
  /-- 4 fields but date or number parsing raised: the `except` branch at
  line 136 runs (`logging.error` then `exit(1)`). -/
  | invalid : LineClass
  /-- The line parsed to an observation. -/
  | valid (obs : Observation) : LineClass
deriving DecidableEq, Repr

/-- Lines 110–133 of `data_ingestion.py`: strip, split on tab, require
exactly 4 fields, parse the date and the three readings, divide by 10,
apply the (post-division) sentinel comparison. -/
def classifyLine (sid : String) (line : String) : LineClass :=
  match splitOnChar '\t' (stripChars line.data) with
  | [dateStr, maxStr, minStr, precStr] =>
    match parseDate dateStr, parseField maxStr, parseField minStr, parseField precStr with
    | some d, some mx, some mn, some pr =>
      .valid ⟨sid, d, sentinelFilter mx, sentinelFilter mn, sentinelFilter pr⟩
    | _, _, _, _ => .invalid
  | _ => .malformed

/-- Result of `process_file` on one file: the counts it returns, the rows it
inserted into staging, and whether it called `exit(1)`. -/
structure FileResult where
  processed : Nat
  duplicate : Nat
  staged : List Observation
  exited : Bool
deriving DecidableEq, Repr

/-- The `for line in file` loop of `process_file` (lines 109–138):
malformed lines are skipped; a parse failure logs and calls `exit(1)`,
ending the file; a parsed line whose `(station_id, date)` is in
`existing_records` only bumps `duplicate_count`; otherwise the row is
inserted into staging (which raises — hence `exit(1)` — when the staging
table does not exist) and `processed_count` is bumped. -/
def processLines (existing : List (String × Date)) (tempExists : Bool) (sid : String) :
    List String → FileResult
  | [] => ⟨0, 0, [], false⟩
  | line :: rest =>
    match classifyLine sid line with
    | .malformed => processLines existing tempExists sid rest
    | .invalid => ⟨0, 0, [], true⟩
    | .valid obs =>
      if obsKey obs ∈ existing then
        let r := processLines existing tempExists sid rest
        ⟨r.processed, r.duplicate + 1, r.staged, r.exited⟩
      else if tempExists then
        let r := processLines existing tempExists sid rest
        ⟨r.processed + 1, r.duplicate, obs :: r.staged, r.exited⟩
      else ⟨0, 0, [], true⟩

/-- One input file: its base name, its lines, and whether `open` succeeds. -/
structure SourceFile where
  name : String
  lines : List String
  readable : Bool
deriving DecidableEq, Repr

/-- `DataIngestion.process_file`: the outer `try` returns the partial counts
`(0, 0)` when opening/reading the file fails (lines 143–145). -/
def processFile (existing : List (String × Date)) (tempExists : Bool)
    (f : SourceFile) : FileResult :=
  if f.readable then processLines existing tempExists (stationIdOf f.name) f.lines
  else ⟨0, 0, [], false⟩

/-- The relational store: the permanent `weather_data` table and the staging
table `temp_weather_data` (`none` = the staging table does not exist). -/
structure Store where
  weather : List Observation
  temp : Option (List Observation)
deriving DecidableEq, Repr

/-- Row-by-row semantics of an insert that silently skips any row whose key
already exists in the table (`INSERT … ON CONFLICT … DO NOTHING`, and the
query-then-add loop of `store_yearly_stats`). -/
def insertIgnore {α κ : Type} [DecidableEq κ] (key : α → κ) (table : List α) :
    List α → List α
  | [] => table
  | r :: rest =>
    if key r ∈ table.map key then insertIgnore key table rest
    else insertIgnore key (table ++ [r]) rest

/-- `DataIngestion.create_temporary_table`: `CREATE TABLE temp_weather_data …`
fails when the table already exists or the store is unreachable (`ok = false`);
the `except` branch only logs, so failure leaves the store unchanged. -/
def createTemporaryTable (ok : Bool) (s : Store) : Store :=
  if ok ∧ s.temp = none then { s with temp := some [] } else s

/-- Appending the rows staged by the file processors to `temp_weather_data`
(the per-row `INSERT INTO temp_weather_data` statements); no-op when the
table does not exist (those inserts raised inside `process_file`). -/
def addToTemp (s : Store) (staged : List Observation) : Store :=
  match s.temp with
  | none => s
  | some rows => { s with temp := some (rows ++ staged) }

/-- `DataIngestion.insert_into_main_table`: `INSERT INTO weather_data …
SELECT … FROM temp_weather_data ON CONFLICT (station_id, date) DO NOTHING`.
The statement fails when the staging table does not exist or the store is
unreachable (`ok = false`); both `except` branches only log, so failure
leaves the store unchanged. -/
def insertIntoMainTable (ok : Bool) (s : Store) : Store :=
  match s.temp with
  | none => s
  | some rows => if ok then { s with weather := insertIgnore obsKey s.weather rows } else s

/-- The `finally` cleanup of `initiate_data_ingestion`:
`DROP TABLE IF EXISTS temp_weather_data` (never errors on a missing table;
`ok = false` models the store being unreachable, which is only logged). -/
def dropTemp (ok : Bool) (s : Store) : Store :=
  if ok then { s with temp := none } else s

/-- `DataIngestion._fetch_existing_records`: query all `(station_id, date)`
pairs of `weather_data`; on any exception the error is only logged and
`self.existing_records` keeps its initial value, the empty set. -/
def fetchExistingRecords (ok : Bool) (s : Store) : List (String × Date) :=
  if ok then s.weather.map obsKey else []

/-- Injected outcomes of the external operations of one ingestion run,
plus the input directory listing. -/
structure RunConfig where
  createOk : Bool
  mergeOk : Bool
  dropOk : Bool
  files : List SourceFile
deriving DecidableEq, Repr

/-- How `initiate_data_ingestion` terminates: normally (success logged), or
by the `SystemExit` of a worker's `exit(1)` re-raised from `future.result()`
(not caught by the `except Exception` handlers). -/
inductive RunOutcome where
  | completed : RunOutcome
  | systemExit : RunOutcome
deriving DecidableEq, Repr

/-- Observable result of `initiate_data_ingestion`. -/
structure RunResult where
  store : Store
  totalProcessed : Nat
  totalDuplicates : Nat
  /-- Number of files submitted to the `ThreadPoolExecutor`. -/
  dispatched : Nat
  /-- Whether the `insert_into_main_table` call at line 197 was reached. -/
  mergeAttempted : Bool
  outcome : RunOutcome
deriving DecidableEq, Repr

/-- `DataIngestion.initiate_data_ingestion` (lines 165–215): create the
staging table (failure only logged), submit every `.txt` file to the pool
(every submitted file runs to completion because exiting the
`with ThreadPoolExecutor` block waits for all futures), accumulate counts,
merge staging into `weather_data` unless a worker exited, and always drop
the staging table in the `finally` block. -/
def initiateDataIngestion (cfg : RunConfig) (existing : List (String × Date))
    (s : Store) : RunResult :=
  let s1 := createTemporaryTable cfg.createOk s
  let tempExists := s1.temp.isSome
  let results := cfg.files.map (fun f => processFile existing tempExists f)
  let staged := (results.map FileResult.staged).flatten
  let s2 := addToTemp s1 staged
  let anyExited := results.any FileResult.exited
  let s3 := if anyExited then s2 else insertIntoMainTable cfg.mergeOk s2
  let s4 := dropTemp cfg.dropOk s3
  { store := s4
    totalProcessed := (results.map FileResult.processed).sum
    totalDuplicates := (results.map FileResult.duplicate).sum
    dispatched := cfg.files.length
    mergeAttempted := !anyExited
    outcome := if anyExited then .systemExit else .completed }

/-- Constructing `DataIngestion` (which loads the Duplicate Index in
`__init__`) and calling `initiate_data_ingestion`. -/
def fullRun (cfg : RunConfig) (fetchOk : Bool) (s : Store) : RunResult :=
  initiateDataIngestion cfg (fetchExistingRecords fetchOk s) s

/-- The observations a file contributes if every line is considered:
its parsed (valid) lines, in order. -/
def validObs (sid : String) (lines : List String) : List Observation :=
  lines.filterMap fun l =>
    match classifyLine sid l with
    | .valid o => some o
    | _ => none

/-- Total number of valid (parseable) lines over a directory listing. -/
def totalValidLines (files : List SourceFile) : Nat :=
  (files.map fun f => (validObs (stationIdOf f.name) f.lines).length).sum

/-- One row of `weather_station_yearly_stats`
(`data_analysis.py`, class `WeatherStationYearlyStats`), also the shape of a
tuple returned by `calculate_yearly_stats`. -/
structure StatRow where
  station_id : String
  year : Nat
  avg_max_temp : Option ℚ
  avg_min_temp : Option ℚ
  total_precipitation : Option ℚ
deriving DecidableEq, Repr

/-- The `(station_id, year)` key of the `unique_station_year` constraint. -/
def statKey (r : StatRow) : String × Nat :=
  (r.station_id, r.year)

/-- `case([(col != None, col)], else_=None)`: the SQL `CASE` expression used
under `avg` in `calculate_yearly_stats`. -/
def caseNull (x : Option ℚ) : Option ℚ :=
  match x with
  | some v => some v
  | none => none

/-- `case([(col != None, col)], else_=0.0)`: the SQL `CASE` expression used
under `sum` in `calculate_yearly_stats`. -/
def caseZero (x : Option ℚ) : Option ℚ :=
  match x with
  | some v => some v
  | none => some 0

/-- SQL `AVG` over a column: `NULL`s are ignored; the result is `NULL` when
no non-`NULL` value remains. -/
def sqlAvg (col : List (Option ℚ)) : Option ℚ :=
  let vs := col.filterMap id
  if vs.isEmpty then none else some (vs.sum / vs.length)

/-- SQL `SUM` over a column: `NULL`s are ignored; the result is `NULL` when
no non-`NULL` value remains. -/
def sqlSum (col : List (Option ℚ)) : Option ℚ :=
  let vs := col.filterMap id
  if vs.isEmpty then none else some vs.sum

/-- The rows of one `GROUP BY (station_id, extract('year', date))` group. -/
def groupRows (w : List Observation) (sid : String) (yr : Nat) : List Observation :=
  w.filter fun r => r.station_id = sid ∧ r.date.year = yr

/-- `DataAnalysis.calculate_yearly_stats` (lines 139–148): group
`weather_data` by `(station_id, extract('year', date))` and aggregate each
group with `avg(case …)` / `sum(case … else 0.0)`. -/
def calculateYearlyStats (w : List Observation) : List StatRow :=
  ((w.map fun r => (r.station_id, r.date.year)).dedup).map fun g =>
    { station_id := g.1
      year := g.2
      avg_max_temp := sqlAvg ((groupRows w g.1 g.2).map fun r => caseNull r.max_temp)
      avg_min_temp := sqlAvg ((groupRows w g.1 g.2).map fun r => caseNull r.min_temp)
      total_precipitation :=
        sqlSum ((groupRows w g.1 g.2).map fun r => caseZero r.precipitation) }

/-- `DataAnalysis.store_yearly_stats` (lines 168–194): for each computed
stat, query `weather_station_yearly_stats` for its `(station_id, year)`
(with autoflush, rows added earlier in the loop are visible); skip when
found, otherwise add a new row. -/
def storeYearlyStats (table : List StatRow) (stats : List StatRow) : List StatRow :=
  insertIgnore statKey table stats

theorem insertIgnore_nil {α κ : Type} [DecidableEq κ] (key : α → κ) (w : List α) :
    insertIgnore key w [] = w := rfl

theorem insertIgnore_split {α κ : Type} [DecidableEq κ] (key : α → κ) (l : List α) :
    ∀ w : List α, ∃ t, insertIgnore key w l = w ++ t ∧ ∀ r ∈ t, key r ∉ w.map key := by
  induction l with
  | nil => intro w; exact ⟨[], by simp [insertIgnore]⟩
  | cons r rest ih =>
    intro w
    by_cases h : key r ∈ w.map key
    · obtain ⟨t, ht, hnew⟩ := ih w
      exact ⟨t, by rw [insertIgnore, if_pos h, ht], hnew⟩
    · obtain ⟨t, ht, hnew⟩ := ih (w ++ [r])
      refine ⟨r :: t, ?_, ?_⟩
      · rw [insertIgnore, if_neg h, ht]
        simp
      · intro x hx
        rcases List.mem_cons.mp hx with hx | hx
        · subst hx; exact h
        · intro hmem
          exact hnew x hx (by simp [hmem])

theorem insertIgnore_key_mem {α κ : Type} [DecidableEq κ] (key : α → κ) (l : List α) :
    ∀ (w : List α) (k : κ),
      k ∈ (insertIgnore key w l).map key ↔ k ∈ w.map key ∨ k ∈ l.map key := by
  induction l with
  | nil => simp [insertIgnore]
  | cons r rest ih =>
    intro w k
    by_cases h : key r ∈ w.map key
    · rw [insertIgnore, if_pos h, ih]
      simp only [List.map_cons, List.mem_cons]
      constructor
      · rintro (hw | hr)
        · exact .inl hw
        · exact .inr (.inr hr)
      · rintro (hw | rfl | hr)
        · exact .inl hw
        · exact .inl h
        · exact .inr hr
    · rw [insertIgnore, if_neg h, ih]
      simp only [List.map_append, List.map_cons, List.map_nil, List.mem_append,
        List.mem_cons, List.mem_singleton]
      tauto

theorem insertIgnore_key_nodup {α κ : Type} [DecidableEq κ] (key : α → κ) (l : List α) :
    ∀ w : List α, (w.map key).Nodup → ((insertIgnore key w l).map key).Nodup := by
  induction l with
  | nil => intro w hw; exact hw
  | cons r rest ih =>
    intro w hw
    by_cases h : key r ∈ w.map key
    · rw [insertIgnore, if_pos h]; exact ih w hw
    · rw [insertIgnore, if_neg h]
      refine ih (w ++ [r]) ?_
      simp only [List.map_append, List.map_cons, List.map_nil]
      refine List.Nodup.append hw (List.nodup_singleton _) ?_
      intro a ha hb
      rw [List.mem_singleton] at hb
      exact h (hb ▸ ha)

/-- The observations a file processor stages: the parsed lines whose key is
not in the Duplicate Index. -/
def newObs (ex : List (String × Date)) (sid : String) (lines : List String) :
    List Observation :=
  (validObs sid lines).filter fun o => obsKey o ∉ ex

theorem processLines_spec (ex : List (String × Date)) (sid : String) :
    ∀ lines : List String, (∀ l ∈ lines, classifyLine sid l ≠ .invalid) →
      processLines ex true sid lines =
        ⟨(newObs ex sid lines).length,
         ((validObs sid lines).filter fun o => obsKey o ∈ ex).length,
         newObs ex sid lines, false⟩ := by
  intro lines
  induction lines with
  | nil => intro _; rfl
  | cons line rest ih =>
    intro h
    have hrest : ∀ l ∈ rest, classifyLine sid l ≠ .invalid :=
      fun l hl => h l (List.mem_cons_of_mem _ hl)
    have hline := h line (List.mem_cons_self _ _)
    rw [processLines]
    cases hc : classifyLine sid line with
    | malformed =>
      rw [ih hrest]
      simp [newObs, validObs, hc]
    | invalid => exact absurd hc hline
    | valid obs =>
      dsimp only
      by_cases hk : obsKey obs ∈ ex
      · rw [if_pos hk, ih hrest]
        simp [newObs, validObs, hc, hk]
      · rw [if_neg hk, if_pos rfl, ih hrest]
        simp [newObs, validObs, hc, hk]

theorem processLines_not_exited (ex : List (String × Date)) (sid : String) :
    ∀ lines : List String, (processLines ex true sid lines).exited = false →
      ∀ l ∈ lines, classifyLine sid l ≠ .invalid := by
  intro lines
  induction lines with
  | nil => intro _ l hl; exact absurd hl (List.not_mem_nil l)
  | cons line rest ih =>
    intro h l hl
    rw [processLines] at h
    cases hc : classifyLine sid line with
    | malformed =>
      rw [hc] at h
      rcases List.mem_cons.mp hl with rfl | hl'
      · simp [hc]
      · exact ih h l hl'
    | invalid =>
      rw [hc] at h
      exact absurd h (by simp)
    | valid obs =>
      rw [hc] at h
      dsimp only at h
      have h' : (processLines ex true sid rest).exited = false := by
        by_cases hk : obsKey obs ∈ ex
        · rw [if_pos hk] at h; exact h
        · rw [if_neg hk, if_pos rfl] at h; exact h
      rcases List.mem_cons.mp hl with rfl | hl'
      · simp [hc]
      · exact ih h' l hl'

theorem processLines_duplicate_empty_index (te : Bool) (sid : String) :
    ∀ lines : List String, (processLines [] te sid lines).duplicate = 0 := by
  intro lines
  induction lines with
  | nil => rfl
  | cons line rest ih =>
    rw [processLines]
    cases classifyLine sid line with
    | malformed => exact ih
    | invalid => rfl
    | valid obs =>
      dsimp only
      rw [if_neg (List.not_mem_nil (obsKey obs))]
      by_cases hte : te = true
      · subst hte; rw [if_pos rfl]; exact ih
      · rw [if_neg hte]

theorem processLines_all_dup (ex : List (String × Date)) (sid : String)
    (lines : List String) (h : ∀ l ∈ lines, classifyLine sid l ≠ .invalid)
    (hall : ∀ o ∈ validObs sid lines, obsKey o ∈ ex) :
    processLines ex true sid lines = ⟨0, (validObs sid lines).length, [], false⟩ := by
  rw [processLines_spec ex sid lines h]
  have hnew : newObs ex sid lines = [] := by
    refine List.filter_eq_nil_iff.mpr ?_
    intro o ho
    simpa using hall o ho
  have hdup : (validObs sid lines).filter (fun o => obsKey o ∈ ex) = validObs sid lines := by
    refine List.filter_eq_self.mpr ?_
    intro o ho
    simpa using hall o ho
  rw [hnew, hdup]
  simp

/-- All rows staged during one run: each file contributes its parsed lines
whose key is not in the Duplicate Index. -/
def runStaged (ex : List (String × Date)) (files : List SourceFile) : List Observation :=
  (files.map fun f => newObs ex (stationIdOf f.name) f.lines).flatten

theorem createTemporaryTable_fresh (s : Store) (htemp : s.temp = none) :
    createTemporaryTable true s = { s with temp := some [] } := by
  rw [createTemporaryTable, if_pos ⟨rfl, htemp⟩]

theorem initiate_complete (cfg : RunConfig) (ex : List (String × Date)) (s : Store)
    (hc : cfg.createOk = true) (hm : cfg.mergeOk = true)
    (hd : cfg.dropOk = true) (htemp : s.temp = none)
    (hread : ∀ f ∈ cfg.files, f.readable = true)
    (hnoinv : ∀ f ∈ cfg.files, ∀ l ∈ f.lines,
      classifyLine (stationIdOf f.name) l ≠ .invalid) :
    initiateDataIngestion cfg ex s =
      { store := { weather := insertIgnore obsKey s.weather (runStaged ex cfg.files),
                   temp := none }
        totalProcessed :=
          (cfg.files.map fun f => (newObs ex (stationIdOf f.name) f.lines).length).sum
        totalDuplicates :=
          (cfg.files.map fun f => ((validObs (stationIdOf f.name) f.lines).filter
            fun o => obsKey o ∈ ex).length).sum
        dispatched := cfg.files.length
        mergeAttempted := true
        outcome := .completed } := by
  have hres : cfg.files.map (fun f =>
        processFile ex (createTemporaryTable cfg.createOk s).temp.isSome f) =
      cfg.files.map (fun f =>
        (⟨(newObs ex (stationIdOf f.name) f.lines).length,
          ((validObs (stationIdOf f.name) f.lines).filter
            fun o => obsKey o ∈ ex).length,
          newObs ex (stationIdOf f.name) f.lines, false⟩ : FileResult)) := by
    refine List.map_congr_left ?_
    intro f hf
    rw [hc, createTemporaryTable_fresh s htemp]
    rw [processFile, if_pos (hread f hf)]
    exact processLines_spec ex (stationIdOf f.name) f.lines (hnoinv f hf)
  rw [initiateDataIngestion, hres]
  have hany : (cfg.files.map (fun f =>
      (⟨(newObs ex (stationIdOf f.name) f.lines).length,
        ((validObs (stationIdOf f.name) f.lines).filter
          fun o => obsKey o ∈ ex).length,
        newObs ex (stationIdOf f.name) f.lines, false⟩ : FileResult))).any
      FileResult.exited = false := by
    refine List.any_eq_false.mpr ?_
    intro r hr
    obtain ⟨f, _, rfl⟩ := List.mem_map.mp hr
    simp
  rw [hany]
  rw [hc, createTemporaryTable_fresh s htemp]
  simp only [List.map_map, Function.comp_def, if_neg Bool.false_ne_true, addToTemp]
  rw [insertIntoMainTable]
  simp only [hm, if_pos rfl, dropTemp, hd]
  simp only [List.nil_append]
  rfl

theorem initiate_completed_not_exited (cfg : RunConfig) (ex : List (String × Date))
    (s : Store) (hout : (initiateDataIngestion cfg ex s).outcome = .completed) :
    (cfg.files.map fun f =>
      processFile ex (createTemporaryTable cfg.createOk s).temp.isSome f).any
      FileResult.exited = false := by
  simp only [initiateDataIngestion] at hout
  by_cases h : (cfg.files.map fun f =>
      processFile ex (createTemporaryTable cfg.createOk s).temp.isSome f).any
      FileResult.exited = true
  · rw [if_pos h] at hout
    exact absurd hout (by simp)
  · exact Bool.eq_false_iff.mpr h

theorem initiate_completed_no_invalid (cfg : RunConfig) (ex : List (String × Date))
    (s : Store) (hc : cfg.createOk = true) (htemp : s.temp = none)
    (hout : (initiateDataIngestion cfg ex s).outcome = .completed) :
    ∀ f ∈ cfg.files, f.readable = true →
      ∀ l ∈ f.lines, classifyLine (stationIdOf f.name) l ≠ .invalid := by
  intro f hf hr
  have hany := initiate_completed_not_exited cfg ex s hout
  have hex : (processFile ex (createTemporaryTable cfg.createOk s).temp.isSome f).exited
      = false := by
    have := List.any_eq_false.mp hany _ (List.mem_map_of_mem _ hf)
    exact Bool.eq_false_iff.mpr this
  rw [hc, createTemporaryTable_fresh s htemp] at hex
  rw [processFile, if_pos hr] at hex
  exact processLines_not_exited ex (stationIdOf f.name) f.lines hex

/-- Claim C5: ingestion is idempotent. For every input directory and store
state (staging absent, store operations succeeding, all files readable, and
the first run completing rather than dying in `exit(1)`), running the full
ingestion twice yields, on the second run, `duplicate_count` equal to the
total number of valid lines in the directory, and leaves the permanent
table — in particular its row count — unchanged relative to the state
after the first run. -/
theorem C5_ingestion_idempotent (cfg : RunConfig) (s : Store)
    (hc : cfg.createOk = true) (hm : cfg.mergeOk = true) (hd : cfg.dropOk = true)
    (htemp : s.temp = none)
    (hread : ∀ f ∈ cfg.files, f.readable = true)
    (hout : (fullRun cfg true s).outcome = .completed) :
    (fullRun cfg true (fullRun cfg true s).store).totalDuplicates
      = totalValidLines cfg.files ∧
    (fullRun cfg true (fullRun cfg true s).store).store.weather
      = (fullRun cfg true s).store.weather ∧
    (fullRun cfg true (fullRun cfg true s).store).store.weather.length
      = (fullRun cfg true s).store.weather.length := by
  have hnoinv : ∀ f ∈ cfg.files, ∀ l ∈ f.lines,
      classifyLine (stationIdOf f.name) l ≠ .invalid := by
    intro f hf
    exact initiate_completed_no_invalid cfg (fetchExistingRecords true s) s hc htemp
      hout f hf (hread f hf)
  have h1 := initiate_complete cfg (fetchExistingRecords true s) s hc hm hd htemp
    hread hnoinv
  have hstore1 : (fullRun cfg true s).store =
      ⟨insertIgnore obsKey s.weather (runStaged (fetchExistingRecords true s) cfg.files),
       none⟩ := by
    rw [fullRun, h1]
  have hall : ∀ f ∈ cfg.files, ∀ o ∈ validObs (stationIdOf f.name) f.lines,
      obsKey o ∈ (insertIgnore obsKey s.weather
        (runStaged (fetchExistingRecords true s) cfg.files)).map obsKey := by
    intro f hf o ho
    refine (insertIgnore_key_mem obsKey
      (runStaged (fetchExistingRecords true s) cfg.files) s.weather (obsKey o)).mpr ?_
    by_cases hk : obsKey o ∈ fetchExistingRecords true s
    · exact Or.inl hk
    · refine Or.inr (List.mem_map_of_mem obsKey ?_)
      rw [runStaged, List.mem_flatten]
      refine ⟨newObs (fetchExistingRecords true s) (stationIdOf f.name) f.lines,
        List.mem_map_of_mem _ hf, ?_⟩
      exact List.mem_filter.mpr ⟨ho, by simpa using hk⟩
  have h2 := initiate_complete cfg
    ((insertIgnore obsKey s.weather
      (runStaged (fetchExistingRecords true s) cfg.files)).map obsKey)
    ⟨insertIgnore obsKey s.weather (runStaged (fetchExistingRecords true s) cfg.files),
     none⟩ hc hm hd rfl hread hnoinv
  have hstaged2 : runStaged
      ((insertIgnore obsKey s.weather
        (runStaged (fetchExistingRecords true s) cfg.files)).map obsKey)
      cfg.files = [] := by
    rw [runStaged]
    refine List.flatten_eq_nil_iff.mpr ?_
    intro l hl
    obtain ⟨f, hf, rfl⟩ := List.mem_map.mp hl
    refine List.filter_eq_nil_iff.mpr ?_
    intro o ho
    simpa using hall f hf o ho
  have hfetch2 : fetchExistingRecords true
      ⟨insertIgnore obsKey s.weather (runStaged (fetchExistingRecords true s) cfg.files),
       none⟩
      = (insertIgnore obsKey s.weather
        (runStaged (fetchExistingRecords true s) cfg.files)).map obsKey := rfl
  have hrun2 : fullRun cfg true (fullRun cfg true s).store =
      initiateDataIngestion cfg
        ((insertIgnore obsKey s.weather
          (runStaged (fetchExistingRecords true s) cfg.files)).map obsKey)
        ⟨insertIgnore obsKey s.weather (runStaged (fetchExistingRecords true s) cfg.files),
         none⟩ := by
    rw [hstore1, fullRun, hfetch2]
  refine ⟨?_, ?_, ?_⟩
  · rw [hrun2, h2]
    dsimp only
    rw [totalValidLines]
    congr 1
    refine List.map_congr_left ?_
    intro f hf
    congr 1
    refine List.filter_eq_self.mpr ?_
    intro o ho
    simpa using hall f hf o ho
  · rw [hrun2, h2, hstore1, hstaged2, insertIgnore_nil]
  · rw [hrun2, h2, hstore1, hstaged2, insertIgnore_nil]

/-- Witness for C5: a concrete two-line station file ingested twice into an
initially empty store; the hypotheses of `C5_ingestion_idempotent` hold and
its conclusion follows by applying it. -/
theorem C5_witness :
    (∀ f ∈ (⟨true, true, true,
        [⟨"USC001.txt", ["19850101\t100\t-50\t-9999", "19850102\t120\t10\t25"], true⟩]⟩ :
        RunConfig).files, f.readable = true) ∧
    (fullRun ⟨true, true, true,
        [⟨"USC001.txt", ["19850101\t100\t-50\t-9999", "19850102\t120\t10\t25"], true⟩]⟩
      true ⟨[], none⟩).outcome = .completed ∧
    ((fullRun ⟨true, true, true,
        [⟨"USC001.txt", ["19850101\t100\t-50\t-9999", "19850102\t120\t10\t25"], true⟩]⟩
      true (fullRun ⟨true, true, true,
        [⟨"USC001.txt", ["19850101\t100\t-50\t-9999", "19850102\t120\t10\t25"], true⟩]⟩
      true ⟨[], none⟩).store).totalDuplicates
      = totalValidLines
          [⟨"USC001.txt", ["19850101\t100\t-50\t-9999", "19850102\t120\t10\t25"], true⟩] ∧
    (fullRun ⟨true, true, true,
        [⟨"USC001.txt", ["19850101\t100\t-50\t-9999", "19850102\t120\t10\t25"], true⟩]⟩
      true (fullRun ⟨true, true, true,
        [⟨"USC001.txt", ["19850101\t100\t-50\t-9999", "19850102\t120\t10\t25"], true⟩]⟩
      true ⟨[], none⟩).store).store.weather
      = (fullRun ⟨true, true, true,
        [⟨"USC001.txt", ["19850101\t100\t-50\t-9999", "19850102\t120\t10\t25"], true⟩]⟩
      true ⟨[], none⟩).store.weather ∧
    (fullRun ⟨true, true, true,
        [⟨"USC001.txt", ["19850101\t100\t-50\t-9999", "19850102\t120\t10\t25"], true⟩]⟩
      true (fullRun ⟨true, true, true,
        [⟨"USC001.txt", ["19850101\t100\t-50\t-9999", "19850102\t120\t10\t25"], true⟩]⟩
      true ⟨[], none⟩).store).store.weather.length
      = (fullRun ⟨true, true, true,
        [⟨"USC001.txt", ["19850101\t100\t-50\t-9999", "19850102\t120\t10\t25"], true⟩]⟩
      true ⟨[], none⟩).store.weather.length) :=
  ⟨by decide, by decide!,
    C5_ingestion_idempotent
      ⟨true, true, true,
        [⟨"USC001.txt", ["19850101\t100\t-50\t-9999", "19850102\t120\t10\t25"], true⟩]⟩
      ⟨[], none⟩ rfl rfl rfl rfl (by decide) (by decide!)⟩

theorem createTemporaryTable_weather (ok : Bool) (s : Store) :
    (createTemporaryTable ok s).weather = s.weather := by
  rw [createTemporaryTable]
  split <;> rfl

theorem addToTemp_weather (s : Store) (l : List Observation) :
    (addToTemp s l).weather = s.weather := by
  cases h : s.temp <;> simp [addToTemp, h]

theorem dropTemp_weather (ok : Bool) (s : Store) :
    (dropTemp ok s).weather = s.weather := by
  rw [dropTemp]
  split <;> rfl

theorem insertIntoMainTable_weather (ok : Bool) (s : Store) :
    ∃ l, (insertIntoMainTable ok s).weather = insertIgnore obsKey s.weather l := by
  cases h : s.temp with
  | none => exact ⟨[], by simp [insertIntoMainTable, h, insertIgnore_nil]⟩
  | some rows =>
    by_cases hok : ok = true
    · subst hok
      exact ⟨rows, by simp [insertIntoMainTable, h]⟩
    · exact ⟨[], by simp [insertIntoMainTable, h, hok, insertIgnore_nil]⟩

theorem initiate_weather_shape (cfg : RunConfig) (ex : List (String × Date)) (s : Store) :
    ∃ l, (initiateDataIngestion cfg ex s).store.weather
      = insertIgnore obsKey s.weather l := by
  rw [initiateDataIngestion]
  dsimp only
  rw [dropTemp_weather]
  by_cases hany : (cfg.files.map fun f =>
      processFile ex (createTemporaryTable cfg.createOk s).temp.isSome f).any
      FileResult.exited = true
  · rw [if_pos hany]
    refine ⟨[], ?_⟩
    rw [addToTemp_weather, createTemporaryTable_weather, insertIgnore_nil]
  · rw [if_neg hany]
    obtain ⟨l, hl⟩ := insertIntoMainTable_weather cfg.mergeOk
      (addToTemp (createTemporaryTable cfg.createOk s)
        ((cfg.files.map fun f =>
          processFile ex (createTemporaryTable cfg.createOk s).temp.isSome f).map
          FileResult.staged).flatten)
    rw [hl, addToTemp_weather, createTemporaryTable_weather]
    exact ⟨l, rfl⟩

/-- Claim C7: after every ingestion run — whether it completes, a worker
dies in `exit(1)`, or staging creation or the merge fails — the staging
table `temp_weather_data` does not exist, provided the `DROP TABLE IF
EXISTS` in the `finally` block itself reaches the store. -/
theorem C7_staging_absent_after_run (cfg : RunConfig) (ex : List (String × Date))
    (s : Store) (hd : cfg.dropOk = true) :
    (initiateDataIngestion cfg ex s).store.temp = none := by
  rw [initiateDataIngestion]
  dsimp only
  rw [dropTemp, hd, if_pos rfl]

/-- Witness for C7: a run whose staging creation fails, whose merge would
fail, and whose single file hits a parse failure (`exit(1)`), starting from
a store where a stale staging table exists; the staging table is still gone
afterwards. -/
theorem C7_witness :
    (⟨false, false, true, [⟨"USC001.txt", ["19850101\tabc\t-50\t0"], true⟩]⟩ :
      RunConfig).dropOk = true ∧
    (initiateDataIngestion
      ⟨false, false, true, [⟨"USC001.txt", ["19850101\tabc\t-50\t0"], true⟩]⟩
      [] ⟨[], some []⟩).store.temp = none :=
  ⟨rfl, C7_staging_absent_after_run
    ⟨false, false, true, [⟨"USC001.txt", ["19850101\tabc\t-50\t0"], true⟩]⟩
    [] ⟨[], some []⟩ rfl⟩

/-- Claim C8: the merge from staging preserves the `(station_id, date)`
uniqueness invariant: every pre-existing row of the permanent table is kept
unchanged (staged rows are appended after it, never overwrite it), every
row the merge adds has a key that was not present, and the keys remain
duplicate-free after the merge. -/
theorem C8_merge_preserves_uniqueness (s : Store) (staged : List Observation)
    (htemp : s.temp = some staged) (hnd : (s.weather.map obsKey).Nodup) :
    ∃ t, (insertIntoMainTable true s).weather = s.weather ++ t ∧
      (∀ r ∈ t, obsKey r ∉ s.weather.map obsKey) ∧
      (((insertIntoMainTable true s).weather).map obsKey).Nodup := by
  have hw : (insertIntoMainTable true s).weather = insertIgnore obsKey s.weather staged := by
    simp [insertIntoMainTable, htemp]
  obtain ⟨t, ht, hnew⟩ := insertIgnore_split obsKey staged s.weather
  refine ⟨t, ?_, hnew, ?_⟩
  · rw [hw, ht]
  · rw [hw]
    exact insertIgnore_key_nodup obsKey staged s.weather hnd

/-- Witness for C8: staging holds a row whose key collides with an existing
observation (different values) and a genuinely new row; the merge keeps the
existing row and stays duplicate-free. -/
theorem C8_witness :
    (⟨[⟨"A", ⟨1985, 1, 1⟩, some 1, some 1, some 1⟩],
      some [⟨"A", ⟨1985, 1, 1⟩, some 2, none, none⟩,
            ⟨"B", ⟨1985, 1, 2⟩, none, none, none⟩]⟩ : Store).temp
      = some [⟨"A", ⟨1985, 1, 1⟩, some 2, none, none⟩,
              ⟨"B", ⟨1985, 1, 2⟩, none, none, none⟩] ∧
    (([⟨"A", ⟨1985, 1, 1⟩, some 1, some 1, some 1⟩] : List Observation).map obsKey).Nodup ∧
    ∃ t, (insertIntoMainTable true
        ⟨[⟨"A", ⟨1985, 1, 1⟩, some 1, some 1, some 1⟩],
         some [⟨"A", ⟨1985, 1, 1⟩, some 2, none, none⟩,
               ⟨"B", ⟨1985, 1, 2⟩, none, none, none⟩]⟩).weather
        = [⟨"A", ⟨1985, 1, 1⟩, some 1, some 1, some 1⟩] ++ t ∧
      (∀ r ∈ t, obsKey r ∉
        ([⟨"A", ⟨1985, 1, 1⟩, some 1, some 1, some 1⟩] : List Observation).map obsKey) ∧
      (((insertIntoMainTable true
        ⟨[⟨"A", ⟨1985, 1, 1⟩, some 1, some 1, some 1⟩],
         some [⟨"A", ⟨1985, 1, 1⟩, some 2, none, none⟩,
               ⟨"B", ⟨1985, 1, 2⟩, none, none, none⟩]⟩).weather).map obsKey).Nodup :=
  ⟨rfl, by decide,
    C8_merge_preserves_uniqueness
      ⟨[⟨"A", ⟨1985, 1, 1⟩, some 1, some 1, some 1⟩],
       some [⟨"A", ⟨1985, 1, 1⟩, some 2, none, none⟩,
             ⟨"B", ⟨1985, 1, 2⟩, none, none, none⟩]⟩
      [⟨"A", ⟨1985, 1, 1⟩, some 2, none, none⟩,
       ⟨"B", ⟨1985, 1, 2⟩, none, none, none⟩] rfl (by decide)⟩

/-- Claim C9: re-running the Aggregator's store step leaves every existing
`(station_id, year)` row unchanged (the stored table is a prefix of the
result and every old row is still present), and only groups whose key had
no existing row are inserted. -/
theorem C9_store_stats_frame (table stats : List StatRow) :
    ∃ t, storeYearlyStats table stats = table ++ t ∧
      (∀ r ∈ table, r ∈ storeYearlyStats table stats) ∧
      (∀ r ∈ t, statKey r ∉ table.map statKey) := by
  obtain ⟨t, ht, hnew⟩ := insertIgnore_split statKey stats table
  rw [storeYearlyStats]
  refine ⟨t, ht, ?_, hnew⟩
  intro r hr
  rw [ht]
  exact List.mem_append_left t hr

theorem processFile_duplicate_empty_index (te : Bool) (f : SourceFile) :
    (processFile [] te f).duplicate = 0 := by
  rw [processFile]
  by_cases hr : f.readable = true
  · rw [if_pos hr]
    exact processLines_duplicate_empty_index te (stationIdOf f.name) f.lines
  · rw [if_neg hr]

/-- Claim C10: if the one-time existing-records query fails during
`DataIngestion` construction, the exception is only logged: the Duplicate
Index stays empty, every file reports `duplicate_count = 0` (so the run's
total is 0 and the run proceeds), and duplicate suppression falls entirely
to the conflict-tolerant merge, which keeps the `(station_id, date)` keys
of the permanent table duplicate-free. -/
theorem C10_fetch_failure_semantics (cfg : RunConfig) (s : Store)
    (hnd : (s.weather.map obsKey).Nodup) :
    fetchExistingRecords false s = [] ∧
    (∀ (f : SourceFile) (te : Bool), (processFile [] te f).duplicate = 0) ∧
    (fullRun cfg false s).totalDuplicates = 0 ∧
    (((fullRun cfg false s).store.weather).map obsKey).Nodup := by
  refine ⟨rfl, fun f te => processFile_duplicate_empty_index te f, ?_, ?_⟩
  · rw [fullRun, initiateDataIngestion]
    dsimp only
    refine List.sum_eq_zero ?_
    intro x hx
    rw [List.map_map] at hx
    obtain ⟨f, _, rfl⟩ := List.mem_map.mp hx
    exact processFile_duplicate_empty_index _ f
  · obtain ⟨l, hl⟩ := initiate_weather_shape cfg (fetchExistingRecords false s) s
    rw [fullRun, hl]
    exact insertIgnore_key_nodup obsKey l s.weather hnd

/-- Witness for C10: the store already holds an observation for
`("USC001", 1985-01-01)`; the fetch fails, and the same station-day appears
again in the input. It is not counted as a duplicate (index empty), yet the
merge still suppresses it. -/
theorem C10_witness :
    ((([⟨"USC001", ⟨1985, 1, 1⟩, some 99, none, none⟩] : List Observation).map obsKey).Nodup) ∧
    (fetchExistingRecords false
      ⟨[⟨"USC001", ⟨1985, 1, 1⟩, some 99, none, none⟩], none⟩ = [] ∧
    (∀ (f : SourceFile) (te : Bool), (processFile [] te f).duplicate = 0) ∧
    (fullRun ⟨true, true, true, [⟨"USC001.txt", ["19850101\t100\t-50\t0"], true⟩]⟩ false
      ⟨[⟨"USC001", ⟨1985, 1, 1⟩, some 99, none, none⟩], none⟩).totalDuplicates = 0 ∧
    (((fullRun ⟨true, true, true, [⟨"USC001.txt", ["19850101\t100\t-50\t0"], true⟩]⟩ false
      ⟨[⟨"USC001", ⟨1985, 1, 1⟩, some 99, none, none⟩], none⟩).store.weather).map
        obsKey).Nodup) :=
  ⟨by decide,
    C10_fetch_failure_semantics
      ⟨true, true, true, [⟨"USC001.txt", ["19850101\t100\t-50\t0"], true⟩]⟩
      ⟨[⟨"USC001", ⟨1985, 1, 1⟩, some 99, none, none⟩], none⟩ (by decide)⟩

theorem createTemporaryTable_failed (s : Store) : createTemporaryTable false s = s := by
  simp [createTemporaryTable]

theorem addToTemp_no_temp (s : Store) (l : List Observation) (h : s.temp = none) :
    addToTemp s l = s := by
  simp [addToTemp, h]

theorem insertIntoMainTable_no_temp (ok : Bool) (s : Store) (h : s.temp = none) :
    insertIntoMainTable ok s = s := by
  simp [insertIntoMainTable, h]

theorem insertIntoMainTable_failed (s : Store) : insertIntoMainTable false s = s := by
  cases h : s.temp <;> simp [insertIntoMainTable, h]

/-- Claim C1 (code bug): on the spec's example line
`19850101\t100\t-50\t-9999` from file `USC001.txt`, the code stores
`precipitation = -999.9`, not null: the `!= -9999` comparison runs after
the division by `10.0`, so the raw sentinel becomes `-999.9` and escapes
it; the comparison would only fire for a raw field of `-99990`. -/
theorem C1_sentinel_stored_as_value :
    processFile [] true ⟨"USC001.txt", ["19850101\t100\t-50\t-9999"], true⟩ =
      ⟨1, 0, [⟨"USC001", ⟨1985, 1, 1⟩, some 10, some (-5), some (-999.9)⟩], false⟩ ∧
    sentinelFilter ((-9999 : ℚ) / 10) = some (-999.9) ∧
    sentinelFilter ((-99990 : ℚ) / 10) = none := by decide!

/-- Claim C2 (code bug): a line with a non-numeric reading makes
`process_file` call `exit(1)`: the file stops with nothing processed — the
valid next line of the same file is never reached — and the whole run
terminates by `SystemExit` instead of recording the failure and
continuing. -/
theorem C2_parse_failure_exits :
    processFile [] true
      ⟨"USC001.txt", ["19850101\tabc\t-50\t0", "19850102\t100\t-50\t0"], true⟩
      = ⟨0, 0, [], true⟩ ∧
    classifyLine "USC001" "19850102\t100\t-50\t0" =
      .valid ⟨"USC001", ⟨1985, 1, 2⟩, some 10, some (-5), some 0⟩ ∧
    (initiateDataIngestion ⟨true, true, true,
        [⟨"USC001.txt", ["19850101\tabc\t-50\t0", "19850102\t100\t-50\t0"], true⟩]⟩
      [] ⟨[], none⟩).outcome = .systemExit := by decide!

/-- Counterexample to C3: with staging-table creation failing, the run does
not abort before dispatch: its file is still submitted (`dispatched = 1`),
the merge call is still reached, and the run even reports completion. -/
theorem C3_counterexample :
    (initiateDataIngestion ⟨false, true, true, [⟨"USC001.txt", ["notab"], true⟩]⟩
      [] ⟨[], none⟩).dispatched = 1 ∧
    (initiateDataIngestion ⟨false, true, true, [⟨"USC001.txt", ["notab"], true⟩]⟩
      [] ⟨[], none⟩).mergeAttempted = true ∧
    (initiateDataIngestion ⟨false, true, true, [⟨"USC001.txt", ["notab"], true⟩]⟩
      [] ⟨[], none⟩).outcome = .completed := by decide!

/-- Claim C3 as amended: if creation of the staging table fails, the error
is only logged and the run does not abort before dispatch: every file is
still enumerated and submitted to the worker pool, the merge call is still
reached whenever no worker exited, and the permanent table is left
unchanged (accepted rows cannot be staged — each such insert instead kills
its worker). -/
theorem C3_create_failure_still_dispatches (cfg : RunConfig)
    (ex : List (String × Date)) (s : Store)
    (hc : cfg.createOk = false) (htemp : s.temp = none) :
    (initiateDataIngestion cfg ex s).dispatched = cfg.files.length ∧
    ((initiateDataIngestion cfg ex s).outcome = .completed →
      (initiateDataIngestion cfg ex s).mergeAttempted = true) ∧
    (initiateDataIngestion cfg ex s).store.weather = s.weather := by
  have hcr : createTemporaryTable cfg.createOk s = s := by
    rw [hc]
    exact createTemporaryTable_failed s
  have hs2 : addToTemp (createTemporaryTable cfg.createOk s)
      ((cfg.files.map fun f =>
        processFile ex (createTemporaryTable cfg.createOk s).temp.isSome f).map
        FileResult.staged).flatten = s := by
    rw [hcr]
    exact addToTemp_no_temp s _ htemp
  refine ⟨rfl, ?_, ?_⟩
  · intro hout
    rw [initiateDataIngestion] at hout ⊢
    dsimp only at hout ⊢
    by_cases hany : (cfg.files.map fun f =>
        processFile ex (createTemporaryTable cfg.createOk s).temp.isSome f).any
        FileResult.exited = true
    · rw [if_pos hany] at hout
      exact absurd hout (by simp)
    · rw [Bool.eq_false_iff.mpr hany]
      rfl
  · rw [initiateDataIngestion]
    dsimp only
    rw [dropTemp_weather]
    by_cases hany : (cfg.files.map fun f =>
        processFile ex (createTemporaryTable cfg.createOk s).temp.isSome f).any
        FileResult.exited = true
    · rw [if_pos hany, hs2]
    · rw [if_neg hany, hs2, insertIntoMainTable_no_temp cfg.mergeOk s htemp]

/-- Witness for C3's amended claim: staging creation fails on a one-file
directory over an empty store. -/
theorem C3_witness :
    (⟨false, true, true, [⟨"USC002.txt", ["19850101\t100\t-50\t0"], true⟩]⟩ :
      RunConfig).createOk = false ∧
    (⟨[], none⟩ : Store).temp = none ∧
    ((initiateDataIngestion ⟨false, true, true,
        [⟨"USC002.txt", ["19850101\t100\t-50\t0"], true⟩]⟩ [] ⟨[], none⟩).dispatched
      = (⟨false, true, true, [⟨"USC002.txt", ["19850101\t100\t-50\t0"], true⟩]⟩ :
        RunConfig).files.length ∧
    ((initiateDataIngestion ⟨false, true, true,
        [⟨"USC002.txt", ["19850101\t100\t-50\t0"], true⟩]⟩ [] ⟨[], none⟩).outcome
        = .completed →
      (initiateDataIngestion ⟨false, true, true,
        [⟨"USC002.txt", ["19850101\t100\t-50\t0"], true⟩]⟩ [] ⟨[], none⟩).mergeAttempted
        = true) ∧
    (initiateDataIngestion ⟨false, true, true,
        [⟨"USC002.txt", ["19850101\t100\t-50\t0"], true⟩]⟩ [] ⟨[], none⟩).store.weather
      = (⟨[], none⟩ : Store).weather) :=
  ⟨rfl, rfl,
    C3_create_failure_still_dispatches
      ⟨false, true, true, [⟨"USC002.txt", ["19850101\t100\t-50\t0"], true⟩]⟩
      [] ⟨[], none⟩ rfl rfl⟩

/-- Counterexample to C4: the merge fails on a run that staged one new row;
nothing is surfaced to the caller — the run reports completion — and the
staged observation is silently lost (the permanent table stays empty). -/
theorem C4_counterexample :
    (initiateDataIngestion ⟨true, false, true,
        [⟨"USC001.txt", ["19850101\t100\t-50\t0"], true⟩]⟩ [] ⟨[], none⟩).outcome
      = .completed ∧
    (initiateDataIngestion ⟨true, false, true,
        [⟨"USC001.txt", ["19850101\t100\t-50\t0"], true⟩]⟩ [] ⟨[], none⟩).store.weather
      = [] ∧
    (initiateDataIngestion ⟨true, false, true,
        [⟨"USC001.txt", ["19850101\t100\t-50\t0"], true⟩]⟩ [] ⟨[], none⟩).totalProcessed
      = 1 := by decide!

/-- Claim C4 as amended: if the merge step fails, the error is caught and
logged inside `insert_into_main_table` and never surfaced: whenever the
merge call is reached, the run completes reporting success, the permanent
table is left unchanged, and cleanup still drops the staging table. -/
theorem C4_merge_failure_silent (cfg : RunConfig) (ex : List (String × Date))
    (s : Store) (hm : cfg.mergeOk = false) (hd : cfg.dropOk = true)
    (hmerge : (initiateDataIngestion cfg ex s).mergeAttempted = true) :
    (initiateDataIngestion cfg ex s).outcome = .completed ∧
    (initiateDataIngestion cfg ex s).store.weather = s.weather ∧
    (initiateDataIngestion cfg ex s).store.temp = none := by
  have hany : (cfg.files.map fun f =>
      processFile ex (createTemporaryTable cfg.createOk s).temp.isSome f).any
      FileResult.exited = false := by
    rw [initiateDataIngestion] at hmerge
    dsimp only at hmerge
    simpa using hmerge
  refine ⟨?_, ?_, ?_⟩
  · rw [initiateDataIngestion]
    dsimp only
    rw [hany, if_neg Bool.false_ne_true]
  · rw [initiateDataIngestion]
    dsimp only
    rw [dropTemp_weather, hany, if_neg Bool.false_ne_true, hm,
      insertIntoMainTable_failed, addToTemp_weather, createTemporaryTable_weather]
  · rw [initiateDataIngestion]
    dsimp only
    rw [dropTemp, hd, if_pos rfl]

/-- Witness for C4's amended claim: merge fails on a one-file run over an
empty store that staged one row. -/
theorem C4_witness :
    (⟨true, false, true, [⟨"USC001.txt", ["19850101\t100\t-50\t0"], true⟩]⟩ :
      RunConfig).mergeOk = false ∧
    (⟨true, false, true, [⟨"USC001.txt", ["19850101\t100\t-50\t0"], true⟩]⟩ :
      RunConfig).dropOk = true ∧
    (initiateDataIngestion ⟨true, false, true,
        [⟨"USC001.txt", ["19850101\t100\t-50\t0"], true⟩]⟩ [] ⟨[], none⟩).mergeAttempted
      = true ∧
    ((initiateDataIngestion ⟨true, false, true,
        [⟨"USC001.txt", ["19850101\t100\t-50\t0"], true⟩]⟩ [] ⟨[], none⟩).outcome
      = .completed ∧
    (initiateDataIngestion ⟨true, false, true,
        [⟨"USC001.txt", ["19850101\t100\t-50\t0"], true⟩]⟩ [] ⟨[], none⟩).store.weather
      = (⟨[], none⟩ : Store).weather ∧
    (initiateDataIngestion ⟨true, false, true,
        [⟨"USC001.txt", ["19850101\t100\t-50\t0"], true⟩]⟩ [] ⟨[], none⟩).store.temp
      = none) :=
  ⟨rfl, rfl, by decide!,
    C4_merge_failure_silent
      ⟨true, false, true, [⟨"USC001.txt", ["19850101\t100\t-50\t0"], true⟩]⟩
      [] ⟨[], none⟩ rfl rfl (by decide!)⟩

/-- Claim C6: every row the Aggregator computes follows the null policy:
`avg_max_temp` / `avg_min_temp` are the arithmetic mean of the non-null
values of that field in the `(station_id, year)` group — null when the
group has no non-null value — and `total_precipitation` sums the group
treating null as 0 (so an all-null group sums to 0, never null, every
group being nonempty). -/
theorem C6_aggregator_null_policy (w : List Observation) (st : StatRow)
    (hst : st ∈ calculateYearlyStats w) :
    (st.avg_max_temp =
      if ((groupRows w st.station_id st.year).filterMap Observation.max_temp).isEmpty
      then none
      else some (((groupRows w st.station_id st.year).filterMap Observation.max_temp).sum
        / ((groupRows w st.station_id st.year).filterMap Observation.max_temp).length)) ∧
    (st.avg_min_temp =
      if ((groupRows w st.station_id st.year).filterMap Observation.min_temp).isEmpty
      then none
      else some (((groupRows w st.station_id st.year).filterMap Observation.min_temp).sum
        / ((groupRows w st.station_id st.year).filterMap Observation.min_temp).length)) ∧
    st.total_precipitation =
      some (((groupRows w st.station_id st.year).map fun r =>
        r.precipitation.getD 0).sum) := by
  rw [calculateYearlyStats] at hst
  obtain ⟨g, hmem, rfl⟩ := List.mem_map.mp hst
  dsimp only
  have hgrp : ∃ r ∈ w, r.station_id = g.1 ∧ r.date.year = g.2 := by
    have hmem2 := List.mem_dedup.mp hmem
    obtain ⟨r, hr, he⟩ := List.mem_map.mp hmem2
    exact ⟨r, hr, congrArg Prod.fst he, congrArg Prod.snd he⟩
  have hne : groupRows w g.1 g.2 ≠ [] := by
    obtain ⟨r, hr, h1, h2⟩ := hgrp
    intro hnil
    have : r ∈ groupRows w g.1 g.2 := List.mem_filter.mpr ⟨hr, by simp [h1, h2]⟩
    rw [hnil] at this
    exact absurd this (List.not_mem_nil r)
  have hcn : ∀ rows : List Observation, (rows.map fun r => caseNull r.max_temp)
      = rows.map Observation.max_temp := by
    intro rows
    refine List.map_congr_left ?_
    intro r _
    cases h : r.max_temp <;> simp [caseNull, h]
  have hcnm : ∀ rows : List Observation, (rows.map fun r => caseNull r.min_temp)
      = rows.map Observation.min_temp := by
    intro rows
    refine List.map_congr_left ?_
    intro r _
    cases h : r.min_temp <;> simp [caseNull, h]
  have hid : ∀ (rows : List Observation) (f : Observation → Option ℚ),
      (rows.map f).filterMap id = rows.filterMap f := by
    intro rows f
    rw [List.filterMap_map]
    rfl
  refine ⟨?_, ?_, ?_⟩
  · rw [sqlAvg, hcn, hid]
  · rw [sqlAvg, hcnm, hid]
  · have hcz : ((groupRows w g.1 g.2).map fun r => caseZero r.precipitation)
        = (groupRows w g.1 g.2).map fun r => some (r.precipitation.getD 0) := by
      refine List.map_congr_left ?_
      intro r _
      cases h : r.precipitation <;> simp [caseZero, h]
    have hmap : (((groupRows w g.1 g.2).map fun r =>
        some (r.precipitation.getD 0)).filterMap id)
        = (groupRows w g.1 g.2).map fun r => r.precipitation.getD 0 := by
      rw [List.filterMap_map]
      exact congrFun (List.filterMap_eq_map fun r => r.precipitation.getD 0)
        (groupRows w g.1 g.2)
    rw [sqlSum, hcz]
    rw [hmap]
    rw [if_neg]
    simp only [List.isEmpty_eq_true, List.map_eq_nil_iff]
    exact hne

/-- Witness for C6: the spec's example — max values [10.0, null, 20.0] give
avg_max_temp = 15.0, all-null min gives null, all-null precipitation gives
total_precipitation = 0.0. -/
theorem C6_witness :
    ((⟨"A", 1985, some 15, none, some 0⟩ : StatRow) ∈ calculateYearlyStats
      [⟨"A", ⟨1985, 1, 1⟩, some 10, none, none⟩,
       ⟨"A", ⟨1985, 1, 2⟩, none, none, none⟩,
       ⟨"A", ⟨1985, 1, 3⟩, some 20, none, none⟩]) ∧
    ((⟨"A", 1985, some 15, none, some 0⟩ : StatRow).avg_max_temp =
      if ((groupRows
          [⟨"A", ⟨1985, 1, 1⟩, some 10, none, none⟩,
           ⟨"A", ⟨1985, 1, 2⟩, none, none, none⟩,
           ⟨"A", ⟨1985, 1, 3⟩, some 20, none, none⟩]
          (⟨"A", 1985, some 15, none, some 0⟩ : StatRow).station_id
          (⟨"A", 1985, some 15, none, some 0⟩ : StatRow).year).filterMap
          Observation.max_temp).isEmpty
      then none
      else some (((groupRows
          [⟨"A", ⟨1985, 1, 1⟩, some 10, none, none⟩,
           ⟨"A", ⟨1985, 1, 2⟩, none, none, none⟩,
           ⟨"A", ⟨1985, 1, 3⟩, some 20, none, none⟩]
          (⟨"A", 1985, some 15, none, some 0⟩ : StatRow).station_id
          (⟨"A", 1985, some 15, none, some 0⟩ : StatRow).year).filterMap
          Observation.max_temp).sum
        / ((groupRows
          [⟨"A", ⟨1985, 1, 1⟩, some 10, none, none⟩,
           ⟨"A", ⟨1985, 1, 2⟩, none, none, none⟩,
           ⟨"A", ⟨1985, 1, 3⟩, some 20, none, none⟩]
          (⟨"A", 1985, some 15, none, some 0⟩ : StatRow).station_id
          (⟨"A", 1985, some 15, none, some 0⟩ : StatRow).year).filterMap
          Observation.max_temp).length)) ∧
    ((⟨"A", 1985, some 15, none, some 0⟩ : StatRow).avg_min_temp =
      if ((groupRows
          [⟨"A", ⟨1985, 1, 1⟩, some 10, none, none⟩,
           ⟨"A", ⟨1985, 1, 2⟩, none, none, none⟩,
           ⟨"A", ⟨1985, 1, 3⟩, some 20, none, none⟩]
          (⟨"A", 1985, some 15, none, some 0⟩ : StatRow).station_id
          (⟨"A", 1985, some 15, none, some 0⟩ : StatRow).year).filterMap
          Observation.min_temp).isEmpty
      then none
      else some (((groupRows
          [⟨"A", ⟨1985, 1, 1⟩, some 10, none, none⟩,
           ⟨"A", ⟨1985, 1, 2⟩, none, none, none⟩,
           ⟨"A", ⟨1985, 1, 3⟩, some 20, none, none⟩]
          (⟨"A", 1985, some 15, none, some 0⟩ : StatRow).station_id
          (⟨"A", 1985, some 15, none, some 0⟩ : StatRow).year).filterMap
          Observation.min_temp).sum
        / ((groupRows
          [⟨"A", ⟨1985, 1, 1⟩, some 10, none, none⟩,
           ⟨"A", ⟨1985, 1, 2⟩, none, none, none⟩,
           ⟨"A", ⟨1985, 1, 3⟩, some 20, none, none⟩]
          (⟨"A", 1985, some 15, none, some 0⟩ : StatRow).station_id
          (⟨"A", 1985, some 15, none, some 0⟩ : StatRow).year).filterMap
          Observation.min_temp).length)) ∧
    (⟨"A", 1985, some 15, none, some 0⟩ : StatRow).total_precipitation =
      some (((groupRows
          [⟨"A", ⟨1985, 1, 1⟩, some 10, none, none⟩,
           ⟨"A", ⟨1985, 1, 2⟩, none, none, none⟩,
           ⟨"A", ⟨1985, 1, 3⟩, some 20, none, none⟩]
          (⟨"A", 1985, some 15, none, some 0⟩ : StatRow).station_id
          (⟨"A", 1985, some 15, none, some 0⟩ : StatRow).year).map fun r =>
        r.precipitation.getD 0).sum) :=
  ⟨by decide!,
    C6_aggregator_null_policy
      [⟨"A", ⟨1985, 1, 1⟩, some 10, none, none⟩,
       ⟨"A", ⟨1985, 1, 2⟩, none, none, none⟩,
       ⟨"A", ⟨1985, 1, 3⟩, some 20, none, none⟩]
      ⟨"A", 1985, some 15, none, some 0⟩ (by decide!)⟩
